import Mathlib

/-!
Verification development for the wishlists CRUD service.

The service manages `Wishlist` rows (owned by customers) and `Item` rows
(product snapshots belonging to one wishlist).  The route layer
(`service/routes.py`) and the two models (`service/models/wishlist.py`,
`service/models/item.py`) are embedded shallowly below:

* JSON payload values become `JVal`; request payloads become association
  lists `Payload`.
* The relational store becomes an explicit `DB` record holding the wishlist
  and item rows in insertion order, together with the id sequences and a
  server clock used for server-assigned timestamps.
* Each Flask route handler becomes a pure function
  `DB → … → Except ApiErr (output × DB)`.  An `Except.error` outcome models
  an aborted request: in the source every `abort`/raised exception happens
  before the transaction commits (or is rolled back by the framework), so an
  error outcome leaves storage unmodified; the embedding encodes this by not
  returning a successor state on error.
* The CRUD primitives of `PersistentBase` (`create`, `update`, `delete`,
  `find`, `clear_items`) are not part of the provided sources; where they
  decide behaviour they are modelled from the spec (see the doc comments
  starting with `Modelled from the spec:`).

Numeric prices: the column is `Numeric(10, 2)`, i.e. an exact decimal with
two fractional digits and at most ten digits overall; a stored price is
embedded as its exact count of cents, and a decimal in flight as an exact
decimal `Dec` (integer mantissa and decimal exponent).  The source converts
prices through `float` and `Decimal(str(...))`; for every value expressible
in `Numeric(10, 2)` the composite `Decimal(str(float(x)))` returns exactly
`x` (distinct cent values stay distinct as doubles, and Python's
shortest-round-trip `str` re-reads to the same decimal value), so these
conversions are embedded as the identity on the exact decimal value.
Timestamps are embedded as opaque strings; a `datetime` and its ISO form
are identified, so `isoformat`/`fromisoformat` are identities.
-/

deriving instance DecidableEq for Except

/-- An exact decimal number, as held by Python's `Decimal` or written as a
JSON number literal: the value `mant / 10 ^ exp`. -/
structure Dec where
  mant : Int
  exp : Nat
deriving DecidableEq, Repr

/-- A JSON scalar value as it appears in a request or response payload.
Python's `bool` is kept separate because `isinstance(True, int)` holds in
Python while `str(True)` is not numeric; both behaviours are reflected in
the conversion helpers below. -/
inductive JVal where
  | null
  | int (n : Int)
  | num (d : Dec)
  | str (s : String)
  | bool (b : Bool)
deriving DecidableEq, Repr

/-- A JSON object / Python dict with the scalar fields the service uses.
Keys are unique in a parsed JSON object; lookups take the first binding. -/
def Payload := List (String × JVal)
deriving DecidableEq, Repr

/-- `isinstance(v, int)` together with reading the integer value.  Python
bools are ints (`True == 1`). -/
def asInt : JVal → Option Int
  | .int n => some n
  | .bool b => some (if b then 1 else 0)
  | _ => none

/-- `isinstance(v, str)` together with reading the string value. -/
def asStr : JVal → Option String
  | .str s => some s
  | _ => none

/-- Value of a digit string (most significant first); `none` when empty or
containing a non-digit. -/
def digitsVal : List Char → Option Nat
  | [] => none
  | cs =>
    if cs.all Char.isDigit then
      some (cs.foldl (fun acc c => acc * 10 + (c.toNat - 48)) 0)
    else none

/-- Parse an unsigned decimal literal `digits[.digits]` (either part may be
empty but not both), as accepted by Python's `Decimal`.  Exponent forms are
not modelled; no claim depends on them. -/
def parseDecCore (cs : List Char) : Option Dec :=
  let ip := cs.takeWhile Char.isDigit
  let rest := cs.drop ip.length
  match rest with
  | [] => (digitsVal ip).map (fun n => { mant := n, exp := 0 })
  | '.' :: fp =>
    if fp.all Char.isDigit ∧ (ip ≠ [] ∨ fp ≠ []) then
      some { mant := ((digitsVal ip).getD 0 : Nat) * 10 ^ fp.length +
               ((digitsVal fp).getD 0 : Nat),
             exp := fp.length }
    else none
  | _ => none

/-- Parse a signed decimal string, as `Decimal(s)` does. -/
def parseDec (s : String) : Option Dec :=
  match s.toList with
  | '-' :: cs => (parseDecCore cs).map (fun d => { d with mant := -d.mant })
  | '+' :: cs => parseDecCore cs
  | cs => parseDecCore cs

/-- `Decimal(str(v))` for a payload value `v`: succeeds on ints, floats and
numeric strings; fails on `None` (`str(None) = "None"`), booleans
(`str(True) = "True"`) and non-numeric strings. -/
def decimalOfJVal : JVal → Option Dec
  | .int n => some { mant := n, exp := 0 }
  | .num d => some d
  | .str s => parseDec s
  | .null => none
  | .bool _ => none

/-- `Decimal(str(payload.get(k)))`: a missing key gives `None`, whose string
form is not numeric. -/
def decimalOfPy (v : Option JVal) : Option Dec :=
  decimalOfJVal (v.getD .null)

/-- Rounding of a decimal to cents when a price is committed into the
`Numeric(10, 2)` column: `⌊value * 100 + 1/2⌋`, computed exactly on the
mantissa (round half up; `PersistentBase` is not under src/, and no claim
depends on the tie-breaking direction). -/
def quantCents (d : Dec) : Int :=
  Int.fdiv (200 * d.mant + 10 ^ d.exp) (2 * 10 ^ d.exp)

/-- Python truthiness of an optional string (`None` and `""` are falsy):
used for query-parameter presence tests in the routes. -/
def truthy : Option String → Bool
  | none => false
  | some s => !(s == "")

/-- Boolean prefix test on character lists. -/
def isPrefixB : List Char → List Char → Bool
  | [], _ => true
  | _ :: _, [] => false
  | a :: as, b :: bs => a == b && isPrefixB as bs

/-- Boolean substring test on character lists (`needle in hay`). -/
def isSubB (n : List Char) : List Char → Bool
  | [] => isPrefixB n []
  | b :: bs => isPrefixB n (b :: bs) || isSubB n bs

/-- `s.lower()` (`Char.toLower` standing in for `str.lower`, which agrees
on ASCII). -/
def lowerChars (s : String) : List Char :=
  s.toList.map Char.toLower

/-- Python's `needle.lower() in hay.lower()`: case-insensitive substring
test. -/
def substrCI (needle hay : String) : Bool :=
  isSubB (lowerChars needle) (lowerChars hay)

/-- `s.strip()`: drop leading and trailing whitespace. -/
def pyStrip (s : String) : String :=
  .mk (((s.toList.dropWhile Char.isWhitespace).reverse.dropWhile Char.isWhitespace).reverse)

/-- Lexicographic comparison by code point, Python's `<=` on strings. -/
def lexLe : List Char → List Char → Bool
  | [], _ => true
  | _ :: _, [] => false
  | a :: as, b :: bs => a < b || (a == b && lexLe as bs)

/-- Insert a string into a sorted list (ascending). -/
def insSorted (x : String) : List String → List String
  | [] => [x]
  | y :: ys => if lexLe x.toList y.toList then x :: y :: ys else y :: insSorted x ys

/-- `sorted(...)` on strings, used to render error messages. -/
def sortStrs : List String → List String
  | [] => []
  | x :: xs => insSorted x (sortStrs xs)

/-- Outcome of an aborted request, tagged with the HTTP class the service's
error handlers assign: `badRequest` is `ValidationError`/400, `notFound` is
`NotFoundError`/404, `conflict` is `ConflictError`/409, `forbidden` is
`OwnershipError`/403, and `server` stands for an exception the routes do not
translate (surfaced as a generic 5xx failure). -/
inductive ApiErr where
  | badRequest (msg : String)
  | notFound (msg : String)
  | conflict (msg : String)
  | forbidden (msg : String)
  | server (msg : String)
deriving DecidableEq, Repr

/-- A stored wishlist row (`Wishlist` model, table `wishlist`).  The owned
items live in `DB.items`, keyed by `wishlist_id` (the ORM relationship). -/
structure WishlistRec where
  id : Nat
  customer_id : String
  name : String
  description : Option String
  created_at : String
  updated_at : String
deriving DecidableEq, Repr

/-- A stored item row (`Item` model).  `cents` is the `Numeric(10, 2)`
`prices` column as an exact count of cents; `wish_date` is the
server-assigned timestamp (column `nullable=False`). -/
structure ItemRec where
  id : Nat
  wishlist_id : Nat
  customer_id : String
  product_id : Int
  product_name : String
  wish_date : String
  cents : Int
deriving DecidableEq, Repr

/-- An `Item` ORM object in memory: every attribute may be unset (`None`),
as on a freshly constructed `Item()`.  `serialize`/`deserialize` operate on
this form; a stored row is the special case where every field is set. -/
structure ItemObj where
  id : Option Nat := none
  wishlist_id : Option Nat := none
  customer_id : Option String := none
  product_id : Option Int := none
  product_name : Option String := none
  wish_date : Option String := none
  prices : Option Dec := none
deriving DecidableEq, Repr

/-- `Item()`: a fresh ORM object with every attribute unset. -/
def Item.new : ItemObj := {}

/-- View a stored row as the ORM object the session returns for it. -/
def ItemRec.toObj (r : ItemRec) : ItemObj :=
  { id := some r.id
    wishlist_id := some r.wishlist_id
    customer_id := some r.customer_id
    product_id := some r.product_id
    product_name := some r.product_name
    wish_date := some r.wish_date
    prices := some { mant := r.cents, exp := 2 } }

/-- The relational store: all rows in insertion order, the id sequences,
and the server clock used for server-assigned timestamp defaults. -/
structure DB where
  wishlists : List WishlistRec := []
  items : List ItemRec := []
  nextWid : Nat := 1
  nextIid : Nat := 1
  now : String := "2024-01-01T00:00:00"
deriving DecidableEq, Repr

/-- Modelled from the spec: `PersistentBase.find` (not under src/) is the
storage contract's `find(entity_type, id) -> entity | absent` (§6),
primary-key lookup. -/
def Wishlist.find (db : DB) (wid : Nat) : Option WishlistRec :=
  db.wishlists.find? (fun w => w.id == wid)

/-- Modelled from the spec: `PersistentBase.find` for items (primary-key
lookup per §6 of the spec). -/
def Item.find (db : DB) (iid : Nat) : Option ItemRec :=
  db.items.find? (fun it => it.id == iid)

/-- `Wishlist.find_by_customer`: all wishlists whose `customer_id` equals
the argument (exact match). -/
def Wishlist.find_by_customer (db : DB) (customer_id : String) : List WishlistRec :=
  db.wishlists.filter (fun w => w.customer_id == customer_id)

def jOfOptNat : Option Nat → JVal
  | some n => .int n
  | none => .null

def jOfOptInt : Option Int → JVal
  | some n => .int n
  | none => .null

def jOfOptStr : Option String → JVal
  | some s => .str s
  | none => .null

/-- `Item.serialize`: the dictionary the model returns, field for field.
`wish_date.isoformat()` is the identity on the embedded timestamp string and
`float(self.prices)` is the exact value of the stored decimal (see the
header comment on the price embedding). -/
def Item.serialize (it : ItemObj) : Payload :=
  [("id", jOfOptNat it.id),
   ("wishlist_id", jOfOptNat it.wishlist_id),
   ("customer_id", jOfOptStr it.customer_id),
   ("product_id", jOfOptInt it.product_id),
   ("product_name", jOfOptStr it.product_name),
   ("wish_date", jOfOptStr it.wish_date),
   ("prices", match it.prices with | some d => .num d | none => .null)]

/-- `Item.deserialize(data)`: populates `product_id`, `product_name`,
optionally `wish_date`, and `prices` from the dictionary; `id`,
`wishlist_id` and `customer_id` are deliberately not read (the assignments
are commented out in the source).  A missing required key raises
`DataValidationError` (`KeyError` branch), which the service error handlers
turn into a 400.  The source stores ill-typed `product_id`/`product_name`
values unchecked and lets the database commit reject them later; the
embedding rejects them at this point (no claim exercises that corner).  A
non-numeric `prices` value makes `Decimal(str(...))` raise outside the
handled exception types; the embedding folds that into an error outcome as
well.  A falsy `wish_date` entry (absent, `None` or `""`) leaves the stored
date unchanged. -/
def Item.deserialize (it : ItemObj) (data : Payload) : Except ApiErr ItemObj :=
  match data.lookup "product_id" with
  | none => .error (.badRequest "Invalid Item: missing product_id")
  | some pidv =>
    match asInt pidv with
    | none => .error (.server "TypeError: product_id attribute")
    | some pid =>
      match data.lookup "product_name" with
      | none => .error (.badRequest "Invalid Item: missing product_name")
      | some pnv =>
        match asStr pnv with
        | none => .error (.server "TypeError: product_name attribute")
        | some pn =>
          let it := { it with product_id := some pid, product_name := some pn }
          let it :=
            match data.lookup "wish_date" with
            | some (.str s) => if s == "" then it else { it with wish_date := some s }
            | _ => it
          match data.lookup "prices" with
          | none => .error (.badRequest "Invalid Item: missing prices")
          | some .null => .ok { it with prices := none }
          | some pv =>
            match decimalOfJVal pv with
            | some q => .ok { it with prices := some q }
            | none => .error (.server "InvalidOperation: prices")

/-- The dictionary `Wishlist.serialize` returns.  The dict has a fixed key
set, so it is embedded as a record; `items` is the serialized owned
collection in insertion order. -/
structure WishlistOut where
  id : Nat
  customer_id : String
  name : String
  description : Option String
  created_at : String
  updated_at : String
  items : List Payload
deriving DecidableEq, Repr

/-- `Wishlist.serialize`: the wishlist's own columns plus the serialized
items of its relationship (the rows with this `wishlist_id`). -/
def Wishlist.serialize (db : DB) (w : WishlistRec) : WishlistOut :=
  { id := w.id
    customer_id := w.customer_id
    name := w.name
    description := w.description
    created_at := w.created_at
    updated_at := w.updated_at
    items := (db.items.filter (fun it => it.wishlist_id == w.id)).map
      (fun it => Item.serialize it.toObj) }

/-- The unknown query-string keys of a wishlist-list request
(`set(request.args.keys()) - {"name", "customer_id"}`). -/
def unknownParams (params : List (String × String)) : List String :=
  ((params.map Prod.fst).dedup).filter (fun k => !(k == "name" || k == "customer_id"))

/-- The 400 message for unsupported wishlist-list query parameters
(`', '.join(sorted(unknown_params))`). -/
def unsupportedMsg (params : List (String × String)) : String :=
  "Unsupported query parameter(s): " ++ String.intercalate ", " (sortStrs (unknownParams params))

/-- `WishlistCollection.get`: list wishlists with optional `customer_id` /
`name` query parameters.  Unknown parameters abort with 400; a truthy
`name` without a truthy `customer_id` aborts with 400; otherwise the three
filter modes of the source apply.  (`args[k]` is `None` when the parameter
is absent; the `.getD ""` unwraps inside a branch where truthiness already
guarantees the value is present.) -/
def listWishlists (db : DB) (params : List (String × String)) :
    Except ApiErr (List WishlistOut) :=
  if unknownParams params ≠ [] then
    .error (.badRequest (unsupportedMsg params))
  else
    let name := params.lookup "name"
    let customer_id := params.lookup "customer_id"
    if truthy name && !(truthy customer_id) then
      .error (.badRequest "customer_id is required when querying by name")
    else
      let wishlists :=
        if truthy customer_id && truthy name then
          (Wishlist.find_by_customer db (customer_id.getD "")).filter
            (fun wl => substrCI (name.getD "") wl.name)
        else if truthy customer_id then
          Wishlist.find_by_customer db (customer_id.getD "")
        else
          db.wishlists
      .ok (wishlists.map (Wishlist.serialize db))

/-- `WishlistCollection.post`: create a wishlist from the payload.
`data["customer_id"]` / `data["name"]` on a payload without those keys
raises an unhandled `KeyError` (no commit happens, so storage is
unchanged); a non-string value would be passed to the string column's
commit-time cast, likewise modelled as an untranslated error.  The insert
itself is `Wishlist.create()`.

Modelled from the spec: `PersistentBase.create` is not under src/; per §5
and §8 the storage engine is the final arbiter of the declared unique
constraint `uq_wishlist_customer_name`, so inserting a row whose
`(customer_id, name)` pair equals an existing row's fails with a
`ConflictError`-equivalent and changes nothing; otherwise the row is
inserted with the next id and server-assigned timestamps. -/
def createWishlist (db : DB) (data : Payload) : Except ApiErr (WishlistOut × DB) :=
  match data.lookup "customer_id" with
  | none => .error (.server "KeyError: customer_id")
  | some cv =>
    match asStr cv with
    | none => .error (.server "StatementError: customer_id must be a string")
    | some c =>
      match data.lookup "name" with
      | none => .error (.server "KeyError: name")
      | some nv =>
        match asStr nv with
        | none => .error (.server "StatementError: name must be a string")
        | some n =>
          let d := match data.lookup "description" with
            | some (.str s) => some s
            | _ => none
          if db.wishlists.any (fun w => w.customer_id == c && w.name == n) then
            .error (.conflict "uq_wishlist_customer_name: duplicate (customer_id, name)")
          else
            let w : WishlistRec :=
              { id := db.nextWid, customer_id := c, name := n, description := d
                created_at := db.now, updated_at := db.now }
            let db' := { db with
              wishlists := db.wishlists ++ [w], nextWid := db.nextWid + 1 }
            .ok (Wishlist.serialize db' w, db')

/-- The `if "name" in data` arm of the sparse patch of
`WishlistResource.put`: applied only when the key is present.  A non-string
value would be rejected by the commit-time cast of the string column; that
is folded in here as an error outcome (no claim exercises it). -/
def patchName (w : WishlistRec) (data : Payload) : Except ApiErr WishlistRec :=
  match data.lookup "name" with
  | none => .ok w
  | some (.str s) => .ok { w with name := s }
  | some _ => .error (.server "StatementError: name must be a string")

/-- The `if "description" in data` arm of the sparse patch (a JSON `null`
clears the nullable column). -/
def patchDescription (w : WishlistRec) (data : Payload) : Except ApiErr WishlistRec :=
  match data.lookup "description" with
  | none => .ok w
  | some (.str s) => .ok { w with description := some s }
  | some .null => .ok { w with description := none }
  | some _ => .error (.server "StatementError: description must be a string")

/-- The sparse patch of `WishlistResource.put`: only the keys present in the
payload are applied. -/
def patchWishlist (w : WishlistRec) (data : Payload) : Except ApiErr WishlistRec :=
  match patchName w data with
  | .error e => .error e
  | .ok w1 => patchDescription w1 data

/-- `WishlistResource.put` (after the `token_required` gate): look the
wishlist up, enforce the `X-Customer-Id` ownership check before touching the
payload, then apply the sparse patch and commit.  `hdr` is
`request.headers.get("X-Customer-Id")` (`none` when the header is absent;
Python's `None != customer_id` is true).

The commit is `Wishlist.update()`.  Modelled from the spec:
`PersistentBase.update` is not under src/; the commit is subject to the
declared unique constraint `uq_wishlist_customer_name` (§5, §8), so a patch
renaming the wishlist onto another row's `(customer_id, name)` pair fails
and changes nothing. -/
def updateWishlist (db : DB) (wid : Nat) (hdr : Option String) (data : Payload) :
    Except ApiErr (WishlistOut × DB) :=
  match Wishlist.find db wid with
  | none => .error (.notFound ("Wishlist with id '" ++ toString wid ++ "' was not found."))
  | some w =>
    if hdr ≠ some w.customer_id then
      .error (.forbidden "You do not own this wishlist")
    else
      match patchWishlist w data with
      | .error e => .error e
      | .ok w2 =>
        if db.wishlists.any (fun x => x.id ≠ w2.id && x.customer_id == w2.customer_id && x.name == w2.name) then
          .error (.conflict "uq_wishlist_customer_name: duplicate (customer_id, name)")
        else
          let db' := { db with
            wishlists := db.wishlists.map (fun x => if x.id == w2.id then w2 else x) }
          .ok (Wishlist.serialize db' w2, db')

/-- `WishlistResource.delete` (after the `token_required` gate): look the
wishlist up; when present delete it, which cascade-deletes its items
(`cascade="all, delete-orphan"` on the relationship, `ondelete="CASCADE"`
on the foreign key); when absent do nothing.  Either way the route returns
204. -/
def deleteWishlist (db : DB) (wid : Nat) : Except ApiErr (Unit × DB) :=
  match Wishlist.find db wid with
  | some w =>
    .ok ((), { db with
      wishlists := db.wishlists.filter (fun x => !(x.id == w.id)),
      items := db.items.filter (fun it => !(it.wishlist_id == w.id)) })
  | none => .ok ((), db)

/-- `WishlistItemCollection.post`: add an item to a wishlist.  The checks
run in source order: wishlist existence (404), non-empty body (400),
`product_id` is a positive `int` (400), `product_name` is a non-blank
string (400), `prices` parses as a decimal (400), then the duplicate check
on `(wishlist_id, product_id)` (409).  On success the row is inserted with
the wishlist's `customer_id`, the server-assigned `wish_date`, and the
price committed into the `Numeric(10, 2)` column; the handler then
re-reads the row and returns its serialization. -/
def createItem (db : DB) (wid : Nat) (payload : Payload) : Except ApiErr (Payload × DB) :=
  match Wishlist.find db wid with
  | none => .error (.notFound ("Wishlist with id '" ++ toString wid ++ "' was not found."))
  | some wishlist =>
    if payload = ([] : Payload) then
      .error (.badRequest "Request body is required")
    else
      match (payload.lookup "product_id").bind asInt with
      | none => .error (.badRequest "product_id must be an integer")
      | some pid =>
        if pid ≤ 0 then
          .error (.badRequest "Invalid product_id: must be positive")
        else
          match (payload.lookup "product_name").bind asStr with
          | none => .error (.badRequest "product_name must be a non-empty string")
          | some pn =>
            if pyStrip pn == "" then
              .error (.badRequest "product_name must be a non-empty string")
            else
              match decimalOfPy (payload.lookup "prices") with
              | none => .error (.badRequest "price must be a number")
              | some price_val =>
                if (db.items.find? (fun it => it.wishlist_id == wid && it.product_id == pid)).isSome then
                  .error (.conflict ("Item with product_id '" ++ toString pid ++
                    "' already exists in this wishlist."))
                else
                  let row : ItemRec :=
                    { id := db.nextIid, wishlist_id := wishlist.id
                      customer_id := wishlist.customer_id, product_id := pid
                      product_name := pn, wish_date := db.now
                      cents := quantCents price_val }
                  let db' := { db with items := db.items ++ [row], nextIid := db.nextIid + 1 }
                  .ok (Item.serialize row.toObj, db')

/-- Committing a mutated ORM item back into its row (`Item.update()`).
Modelled from the spec: `PersistentBase.update` is not under src/; the
commit enforces the declared column constraints — every `nullable=False`
column must be set (in particular a `None` price is rejected by the
`prices` column) — and stores the price as the `Numeric(10, 2)` decimal. -/
def commitItem (obj : ItemObj) : Option ItemRec :=
  match obj.id, obj.wishlist_id, obj.customer_id, obj.product_id,
      obj.product_name, obj.wish_date, obj.prices with
  | some i, some w, some c, some pid, some pn, some d, some q =>
    some { id := i, wishlist_id := w, customer_id := c, product_id := pid
           product_name := pn, wish_date := d, cents := quantCents q }
  | _, _, _, _, _, _, _ => none

/-- `WishlistItemResource.put`: wishlist existence (404), item existence
(404), cross-wishlist mismatch (404 with the "in Wishlist" message), then
`item.deserialize(api.payload)` followed by `item.update()` and the
serialized result. -/
def updateItem (db : DB) (wid iid : Nat) (payload : Payload) : Except ApiErr (Payload × DB) :=
  match Wishlist.find db wid with
  | none => .error (.notFound ("Wishlist with id '" ++ toString wid ++ "' was not found."))
  | some _wishlist =>
    match Item.find db iid with
    | none => .error (.notFound ("Item with id '" ++ toString iid ++ "' was not found."))
    | some item =>
      if item.wishlist_id ≠ wid then
        .error (.notFound ("Item with id '" ++ toString iid ++
          "' was not found in Wishlist '" ++ toString wid ++ "'."))
      else
        match Item.deserialize item.toObj payload with
        | .error e => .error e
        | .ok obj =>
          match commitItem obj with
          | none => .error (.server "IntegrityError: NOT NULL constraint failed")
          | some row =>
            let db' := { db with
              items := db.items.map (fun x => if x.id == item.id then row else x) }
            .ok (Item.serialize row.toObj, db')

/-- `WishlistItemResource.delete`: look the item up by id; delete it only
when it exists and belongs to the wishlist named in the path; in every case
return 204 (idempotent by design, per the handler's docstring). -/
def deleteItem (db : DB) (wid iid : Nat) : Except ApiErr (Unit × DB) :=
  match Item.find db iid with
  | some item =>
    if item.wishlist_id == wid then
      .ok ((), { db with items := db.items.filter (fun x => !(x.id == item.id)) })
    else
      .ok ((), db)
  | none => .ok ((), db)

/-- Modelled from the spec: `Wishlist.clear_items` (`PersistentBase`, not
under src/) "removes all items belonging to the wishlist in one
transaction, returns count removed" (§4.1). -/
def Wishlist.clear_items (db : DB) (w : WishlistRec) : DB × Nat :=
  let removed := db.items.filter (fun it => it.wishlist_id == w.id)
  ({ db with items := db.items.filter (fun it => !(it.wishlist_id == w.id)) },
   removed.length)

/-- `ClearWishlistResource.put`: 404 when the wishlist does not exist,
otherwise `wishlist.clear_items()` and 204. -/
def clearWishlist (db : DB) (wid : Nat) : Except ApiErr (Unit × DB) :=
  match Wishlist.find db wid with
  | none => .error (.notFound ("Wishlist with id '" ++ toString wid ++ "' was not found."))
  | some wishlist =>
    .ok ((), (Wishlist.clear_items db wishlist).1)

/-- One external mutating request, for stating storage invariants over
request sequences.  `updateW` carries the caller-asserted `X-Customer-Id`
header value. -/
inductive Op where
  | createW (data : Payload)
  | updateW (wid : Nat) (hdr : Option String) (data : Payload)
  | deleteW (wid : Nat)
  | createI (wid : Nat) (payload : Payload)
  | updateI (wid iid : Nat) (payload : Payload)
  | deleteI (wid iid : Nat)
  | clearW (wid : Nat)
deriving Repr

/-- The storage state after one request: the committed successor state on
success, the unchanged state when the request aborts. -/
def applyOp (db : DB) : Op → DB
  | .createW data =>
    match createWishlist db data with
    | .ok (_, db') => db' | .error _ => db
  | .updateW wid hdr data =>
    match updateWishlist db wid hdr data with
    | .ok (_, db') => db' | .error _ => db
  | .deleteW wid =>
    match deleteWishlist db wid with
    | .ok (_, db') => db' | .error _ => db
  | .createI wid payload =>
    match createItem db wid payload with
    | .ok (_, db') => db' | .error _ => db
  | .updateI wid iid payload =>
    match updateItem db wid iid payload with
    | .ok (_, db') => db' | .error _ => db
  | .deleteI wid iid =>
    match deleteItem db wid iid with
    | .ok (_, db') => db' | .error _ => db
  | .clearW wid =>
    match clearWishlist db wid with
    | .ok (_, db') => db' | .error _ => db

/-- The storage state after a sequence of requests. -/
def applyOps (db : DB) (ops : List Op) : DB :=
  ops.foldl applyOp db

/-- Well-formedness the storage engine maintains for the wishlist table:
primary keys are pairwise distinct and below the id sequence. -/
def DB.wfW (db : DB) : Prop :=
  (∀ w ∈ db.wishlists, w.id < db.nextWid) ∧
  db.wishlists.Pairwise (fun a b => a.id ≠ b.id)

/-- The spec's §3 invariant: `(customer_id, name)` is unique across all
stored wishlists. -/
def DB.uniquePairs (db : DB) : Prop :=
  db.wishlists.Pairwise
    (fun a b => ¬(a.customer_id = b.customer_id ∧ a.name = b.name))

/-- Fixture: a stored wishlist owned by CUST001. -/
def wFixA : WishlistRec :=
  { id := 1, customer_id := "CUST001", name := "Holiday Gifts",
    description := none, created_at := "t0", updated_at := "t0" }

/-- Fixture: a stored wishlist owned by CUST002 whose name also matches "gift". -/
def wFixB : WishlistRec :=
  { id := 2, customer_id := "CUST002", name := "Gift Ideas",
    description := some "other customer", created_at := "t0", updated_at := "t0" }

/-- Fixture: a stored item of `wFixA` (product 123 at 19.99). -/
def itFixA : ItemRec :=
  { id := 1, wishlist_id := 1, customer_id := "CUST001", product_id := 123,
    product_name := "Widget", wish_date := "t0", cents := 1999 }

/-- Fixture: a store holding both wishlists and the one item. -/
def dbFix : DB :=
  { wishlists := [wFixA, wFixB], items := [itFixA], nextWid := 3, nextIid := 2, now := "t0" }

/-- Fixture: a valid item-creation payload for product 123. -/
def pFirstItem : Payload :=
  [("product_id", .int 123), ("product_name", .str "Widget"),
   ("prices", .num { mant := 1999, exp := 2 })]

/-- Fixture: a payload for the same product 123 whose name is blank. -/
def pBlankDup : Payload :=
  [("product_id", .int 123), ("product_name", .str "   "),
   ("prices", .num { mant := 2499, exp := 2 })]

/-- Fixture: a fully populated ORM item for the round-trip claims. -/
def itObjC9 : ItemObj :=
  { id := some 7, wishlist_id := some 1, customer_id := some "CUST001",
    product_id := some 123, product_name := some "Widget",
    wish_date := some "2024-12-05T10:30:00", prices := some { mant := 1999, exp := 2 } }

/-- A stored-shape ORM item: `product_id` and `product_name` set, and any
price expressible in the `Numeric(10, 2)` column (two fractional digits,
at most ten digits), the domain on which the source's
`Decimal(str(float(...)))` conversions are exact. -/
def ItemObj.validStored (it : ItemObj) : Bool :=
  it.product_id.isSome && it.product_name.isSome &&
  (match it.prices with
   | none => true
   | some d => d.exp == 2 && d.mant.natAbs < 10 ^ 10)

theorem isSubB_nil_needle (l : List Char) : isSubB [] l = true := by
  cases l <;> simp [isSubB, isPrefixB]

theorem find?_isSome_of_mem {α : Type} {p : α → Bool} {l : List α} {x : α}
    (hx : x ∈ l) (hp : p x = true) : (l.find? p).isSome = true := by
  induction l with
  | nil => cases hx
  | cons a t ih =>
    rcases List.mem_cons.mp hx with rfl | hx'
    · simp [List.find?, hp]
    · cases hpa : p a <;> simp [List.find?, hpa, ih hx']

/-- C2: deleting a missing wishlist, a missing item, or an item that belongs
to a different wishlist than the path's, succeeds (204) with storage
unchanged. -/
theorem claim_C2_idempotent_delete :
    (∀ (db : DB) (wid : Nat), Wishlist.find db wid = none →
      deleteWishlist db wid = .ok ((), db)) ∧
    (∀ (db : DB) (wid iid : Nat),
      Item.find db iid = none ∨ (∃ it, Item.find db iid = some it ∧ it.wishlist_id ≠ wid) →
      deleteItem db wid iid = .ok ((), db)) := by
  constructor
  · intro db wid h
    simp [deleteWishlist, h]
  · intro db wid iid h
    rcases h with h | ⟨it, h, hne⟩
    · simp [deleteItem, h]
    · simp [deleteItem, h, hne]

theorem claim_C2_witness :
    deleteWishlist ({} : DB) 999 = .ok ((), ({} : DB)) ∧
    deleteItem dbFix 2 1 = .ok ((), dbFix) ∧
    deleteItem dbFix 1 999 = .ok ((), dbFix) :=
  ⟨claim_C2_idempotent_delete.1 {} 999 rfl,
   claim_C2_idempotent_delete.2 dbFix 2 1 (Or.inr ⟨itFixA, rfl, by decide⟩),
   claim_C2_idempotent_delete.2 dbFix 1 999 (Or.inl rfl)⟩

/-- C3: updating an existing wishlist with an `X-Customer-Id` different from
the stored owner fails with `OwnershipError` (403) no matter what the
payload holds; the error outcome carries no successor state, i.e. the
wishlist is unchanged. -/
theorem claim_C3_ownership_gate :
    ∀ (db : DB) (wid : Nat) (w : WishlistRec) (c2 : String) (data : Payload),
      Wishlist.find db wid = some w → c2 ≠ w.customer_id →
      updateWishlist db wid (some c2) data =
        .error (.forbidden "You do not own this wishlist") := by
  intro db wid w c2 data hfind hne
  simp [updateWishlist, hfind, hne]

theorem claim_C3_witness :
    updateWishlist dbFix 1 (some "CUST002") [("name", .str "Taken Over")] =
      .error (.forbidden "You do not own this wishlist") :=
  claim_C3_ownership_gate dbFix 1 wFixA "CUST002" [("name", .str "Taken Over")]
    rfl (by decide)

/-- C7: clearing an existing wishlist removes exactly its items and reports
their count (0 on an already-empty wishlist, with the store unchanged);
the route fails with `NotFoundError` precisely when the wishlist id does
not exist, in which case no successor state is produced. -/
theorem claim_C7_clear_items :
    (∀ (db : DB) (wid : Nat) (w : WishlistRec), Wishlist.find db wid = some w →
      clearWishlist db wid =
        .ok ((), { db with items := db.items.filter (fun it => !(it.wishlist_id == w.id)) }) ∧
      (Wishlist.clear_items db w).2 =
        (db.items.filter (fun it => it.wishlist_id == w.id)).length ∧
      ((∀ it ∈ db.items, it.wishlist_id ≠ w.id) →
        (Wishlist.clear_items db w).1 = db ∧ (Wishlist.clear_items db w).2 = 0)) ∧
    (∀ (db : DB) (wid : Nat), Wishlist.find db wid = none →
      clearWishlist db wid =
        .error (.notFound ("Wishlist with id '" ++ toString wid ++ "' was not found."))) := by
  constructor
  · intro db wid w hfind
    refine ⟨by simp [clearWishlist, hfind, Wishlist.clear_items], rfl, ?_⟩
    intro hempty
    constructor
    · show { db with items := db.items.filter (fun it => !(it.wishlist_id == w.id)) } = db
      have : db.items.filter (fun it => !(it.wishlist_id == w.id)) = db.items := by
        apply List.filter_eq_self.mpr
        intro it hit
        simpa using hempty it hit
      rw [this]
    · show (db.items.filter (fun it => it.wishlist_id == w.id)).length = 0
      have : db.items.filter (fun it => it.wishlist_id == w.id) = [] := by
        apply List.filter_eq_nil_iff.mpr
        intro it hit
        simpa using hempty it hit
      rw [this]; rfl
  · intro db wid h
    simp [clearWishlist, h]

theorem claim_C7_witness :
    clearWishlist dbFix 1 =
      .ok ((), { dbFix with items := dbFix.items.filter (fun it => !(it.wishlist_id == wFixA.id)) }) ∧
    (Wishlist.clear_items dbFix wFixA).2 =
      (dbFix.items.filter (fun it => it.wishlist_id == wFixA.id)).length ∧
    ((Wishlist.clear_items dbFix wFixB).1 = dbFix ∧ (Wishlist.clear_items dbFix wFixB).2 = 0) ∧
    clearWishlist dbFix 999 =
      .error (.notFound ("Wishlist with id '" ++ toString 999 ++ "' was not found.")) :=
  ⟨(claim_C7_clear_items.1 dbFix 1 wFixA rfl).1,
   (claim_C7_clear_items.1 dbFix 1 wFixA rfl).2.1,
   (claim_C7_clear_items.1 dbFix 2 wFixB rfl).2.2 (by decide),
   claim_C7_clear_items.2 dbFix 999 rfl⟩

theorem unknownParams_eq_nil {params : List (String × String)}
    (h : ∀ k ∈ params.map Prod.fst, k = "name" ∨ k = "customer_id") :
    unknownParams params = [] := by
  apply List.filter_eq_nil_iff.mpr
  intro k hk
  rcases h k (List.mem_dedup.mp hk) with rfl | rfl <;> decide

/-- C10: a `name` query parameter supplied as the empty string behaves as an
absent filter on the wishlist list: no `customer_id`-required 400 is raised
even without a `customer_id`, and the result is unrestricted (all
wishlists, or all of the supplied customer's wishlists). -/
theorem claim_C10_empty_name_filter :
    ∀ (db : DB) (params : List (String × String)),
      params.lookup "name" = some "" →
      (∀ k ∈ params.map Prod.fst, k = "name" ∨ k = "customer_id") →
      ((params.lookup "customer_id" = none ∨ params.lookup "customer_id" = some "") →
        listWishlists db params = .ok (db.wishlists.map (Wishlist.serialize db))) ∧
      (∀ C, params.lookup "customer_id" = some C → C ≠ "" →
        listWishlists db params =
          .ok ((Wishlist.find_by_customer db C).map (Wishlist.serialize db))) := by
  intro db params hname hkeys
  have hu := unknownParams_eq_nil hkeys
  constructor
  · intro hc
    rcases hc with hc | hc <;> simp [listWishlists, hu, hname, hc, truthy]
  · intro C hc hC
    simp [listWishlists, hu, hname, hc, truthy, hC]

theorem claim_C10_witness :
    listWishlists dbFix [("name", "")] = .ok (dbFix.wishlists.map (Wishlist.serialize dbFix)) ∧
    listWishlists dbFix [("name", ""), ("customer_id", "CUST001")] =
      .ok ((Wishlist.find_by_customer dbFix "CUST001").map (Wishlist.serialize dbFix)) :=
  ⟨(claim_C10_empty_name_filter dbFix [("name", "")] rfl (by decide)).1 (Or.inl rfl),
   (claim_C10_empty_name_filter dbFix [("name", ""), ("customer_id", "CUST001")] rfl
      (by decide)).2 "CUST001" rfl (by decide)⟩

/-- C4: listing with both `customer_id=C` and `name=N` returns exactly the
wishlists whose `customer_id` equals `C` and whose name contains `N`
case-insensitively — in particular none owned by another customer.  An
empty `C` is treated by the route as an absent filter (see C10), so `C`
ranges over actual (non-empty) customer ids. -/
theorem claim_C4_filter_correctness :
    ∀ (db : DB) (C N : String), C ≠ "" →
      listWishlists db [("customer_id", C), ("name", N)] =
        .ok ((db.wishlists.filter
          (fun w => w.customer_id == C && substrCI N w.name)).map (Wishlist.serialize db)) := by
  intro db C N hC
  have hu : unknownParams [("customer_id", C), ("name", N)] = [] := rfl
  have hn : List.lookup "name" [("customer_id", C), ("name", N)] = some N := rfl
  have hc : List.lookup "customer_id" [("customer_id", C), ("name", N)] = some C := rfl
  by_cases hN : N = ""
  · subst hN
    have hCb : (C == "") = false := by simpa using hC
    have hfe : db.wishlists.filter (fun w => w.customer_id == C && substrCI "" w.name)
        = db.wishlists.filter (fun w => w.customer_id == C) := by
      apply List.filter_congr
      intro w _
      simp [substrCI, lowerChars, isSubB_nil_needle]
    simp [listWishlists, hu, hn, hc, truthy, hCb, Wishlist.find_by_customer, hfe]
  · have hCb : (C == "") = false := by simpa using hC
    have hNb : (N == "") = false := by simpa using hN
    have hfe : (db.wishlists.filter (fun w => w.customer_id == C)).filter
          (fun wl => substrCI N wl.name)
        = db.wishlists.filter (fun w => w.customer_id == C && substrCI N w.name) := by
      rw [List.filter_filter]
      apply List.filter_congr
      intro w _
      rw [Bool.and_comm]
    simp [listWishlists, hu, hn, hc, truthy, hCb, hNb, Wishlist.find_by_customer, hfe]

theorem claim_C4_witness :
    listWishlists dbFix [("customer_id", "CUST001"), ("name", "gift")] =
      .ok ((dbFix.wishlists.filter
        (fun w => w.customer_id == "CUST001" && substrCI "gift" w.name)).map
          (Wishlist.serialize dbFix)) :=
  claim_C4_filter_correctness dbFix "CUST001" "gift" (by decide)

/-- C5: a non-empty `name` filter without a (truthy) `customer_id` fails
with `ValidationError` stating that `customer_id` is required; any query
parameter other than `name`/`customer_id` fails with `ValidationError`
whose message lists the sorted unknown parameter names. -/
theorem claim_C5_list_query_errors :
    (∀ (db : DB) (params : List (String × String)) (N : String),
      params.lookup "name" = some N → N ≠ "" →
      (params.lookup "customer_id" = none ∨ params.lookup "customer_id" = some "") →
      (∀ k ∈ params.map Prod.fst, k = "name" ∨ k = "customer_id") →
      listWishlists db params =
        .error (.badRequest "customer_id is required when querying by name")) ∧
    (∀ (db : DB) (params : List (String × String)) (k : String),
      k ∈ params.map Prod.fst → k ≠ "name" → k ≠ "customer_id" →
      listWishlists db params = .error (.badRequest (unsupportedMsg params))) := by
  constructor
  · intro db params N hname hN hc hkeys
    have hu := unknownParams_eq_nil hkeys
    have hNb : (N == "") = false := by simpa using hN
    rcases hc with hc | hc <;> simp [listWishlists, hu, hname, hc, truthy, hNb]
  · intro db params k hk hk1 hk2
    have hmem : k ∈ unknownParams params := by
      apply List.mem_filter.mpr
      refine ⟨List.mem_dedup.mpr hk, ?_⟩
      simp [hk1, hk2]
    have hne : unknownParams params ≠ [] := List.ne_nil_of_mem hmem
    simp [listWishlists, hne]

theorem claim_C5_witness :
    listWishlists dbFix [("name", "foo")] =
      .error (.badRequest "customer_id is required when querying by name") ∧
    listWishlists dbFix [("name", "foo"), ("zzz", "1"), ("abc", "2")] =
      .error (.badRequest (unsupportedMsg [("name", "foo"), ("zzz", "1"), ("abc", "2")])) :=
  ⟨claim_C5_list_query_errors.1 dbFix [("name", "foo")] "foo" rfl (by decide)
     (Or.inl rfl) (by decide),
   claim_C5_list_query_errors.2 dbFix [("name", "foo"), ("zzz", "1"), ("abc", "2")] "zzz"
     (by decide) (by decide) (by decide)⟩

/-- C1 counterexample: with product 123 already in wishlist 1 (first
creation succeeded), a second creation request for the same `product_id`
whose `product_name` is blank fails with `ValidationError` (400), not
`ConflictError` (409): field validation runs before the duplicate check. -/
theorem claim_C1_counterexample :
    createItem { dbFix with items := [], nextIid := 1 } 1 pFirstItem =
      .ok (Item.serialize itFixA.toObj, dbFix) ∧
    createItem dbFix 1 pBlankDup =
      .error (.badRequest "product_name must be a non-empty string") := by
  constructor <;> decide

/-- C1 (amended): when the wishlist exists and the second request passes
field validation (integer positive `product_id`, non-blank `product_name`,
parseable price), a creation request whose `product_id` already occurs in
the wishlist fails with `ConflictError` naming the duplicate product; the
error outcome carries no successor state, so the item collection is
unchanged. -/
theorem claim_C1_amended :
    ∀ (db : DB) (wid : Nat) (w : WishlistRec) (payload : Payload) (pid : Int)
      (pn : String) (pr : Dec),
      Wishlist.find db wid = some w →
      (payload.lookup "product_id").bind asInt = some pid →
      0 < pid →
      (payload.lookup "product_name").bind asStr = some pn →
      pyStrip pn ≠ "" →
      decimalOfPy (payload.lookup "prices") = some pr →
      (∃ it ∈ db.items, it.wishlist_id = wid ∧ it.product_id = pid) →
      createItem db wid payload =
        .error (.conflict ("Item with product_id '" ++ toString pid ++
          "' already exists in this wishlist.")) := by
  intro db wid w payload pid pn pr hfind hpid hpos hpn hblank hpr hdup
  obtain ⟨it, hit, hw, hp⟩ := hdup
  have hpayload : payload ≠ ([] : Payload) := by
    intro h
    rw [h] at hpid
    simp [List.lookup] at hpid
  have hdupb : (db.items.find?
      (fun it => it.wishlist_id == wid && it.product_id == pid)).isSome = true := by
    apply find?_isSome_of_mem hit
    simp [hw, hp]
  have hposb : ¬ pid ≤ 0 := not_le.mpr hpos
  have hblankb : (pyStrip pn == "") = false := by simpa using hblank
  simp [createItem, hfind, hpayload, hpid, hposb, hpn, hblankb, hpr, hdupb]

theorem claim_C1_witness :
    createItem dbFix 1
        [("product_id", .int 123), ("product_name", .str "Gadget"),
         ("prices", .num { mant := 2499, exp := 2 })] =
      .error (.conflict ("Item with product_id '" ++ toString (123 : Int) ++
        "' already exists in this wishlist.")) :=
  claim_C1_amended dbFix 1 wFixA
    [("product_id", .int 123), ("product_name", .str "Gadget"),
     ("prices", .num { mant := 2499, exp := 2 })]
    123 "Gadget" { mant := 2499, exp := 2 }
    rfl rfl (by decide) rfl (by decide) rfl ⟨itFixA, by decide, rfl, rfl⟩

/-- C8 counterexample: item 1 exists in wishlist 1, yet an update whose
payload supplies only `product_name` (a strict subset of the item fields)
fails with `ValidationError` instead of succeeding: the shared
deserialization path requires `product_id`, `product_name` and `prices`. -/
theorem claim_C8_counterexample :
    updateItem dbFix 1 1 [("product_name", .str "Renamed")] =
      .error (.badRequest "Invalid Item: missing product_id") := by
  decide

/-- C8 (amended): item update feeds the payload through the same
deserialization path as creation, which requires the `product_id`,
`product_name` and `prices` keys — a payload missing one fails with
`ValidationError` naming the missing key and leaves the item unchanged.
A well-typed full payload succeeds: `product_id`, `product_name` are
replaced, the numeric price is committed as a 2-decimal fixed-point value
(`quantCents`), and the unsupplied `wish_date`, `id`, `wishlist_id` and
`customer_id` keep their stored values.  A `null` price is accepted by the
deserialization step itself (stored as unset), though creation's validation
rejects it. -/
theorem claim_C8_update_payload :
    (∀ (db : DB) (wid iid : Nat) (w : WishlistRec) (it : ItemRec) (payload : Payload)
        (pid : Int) (pn : String) (pr : Dec),
      Wishlist.find db wid = some w →
      Item.find db iid = some it →
      it.wishlist_id = wid →
      payload.lookup "product_id" = some (.int pid) →
      payload.lookup "product_name" = some (.str pn) →
      payload.lookup "wish_date" = none →
      payload.lookup "prices" = some (.num pr) →
      updateItem db wid iid payload =
        .ok (Item.serialize
          (ItemRec.toObj { it with product_id := pid, product_name := pn, cents := quantCents pr }),
          { db with items := db.items.map (fun x =>
              if x.id == it.id then
                { it with product_id := pid, product_name := pn, cents := quantCents pr }
              else x) })) ∧
    (∀ (it : ItemObj) (payload : Payload) (pid : Int) (pn : String),
      payload.lookup "product_id" = some (.int pid) →
      payload.lookup "product_name" = some (.str pn) →
      payload.lookup "wish_date" = none →
      payload.lookup "prices" = some .null →
      Item.deserialize it payload =
        .ok { it with product_id := some pid, product_name := some pn, prices := none }) ∧
    (∀ (db : DB) (wid iid : Nat) (w : WishlistRec) (it : ItemRec) (payload : Payload),
      Wishlist.find db wid = some w →
      Item.find db iid = some it →
      it.wishlist_id = wid →
      payload.lookup "product_id" = none →
      updateItem db wid iid payload =
        .error (.badRequest "Invalid Item: missing product_id")) := by
  refine ⟨?_, ?_, ?_⟩
  · intro db wid iid w it payload pid pn pr hfind hifind hwid hpid hpn hwd hpr
    simp [updateItem, hfind, hifind, hwid, Item.deserialize, hpid, hpn, hwd, hpr,
      asInt, asStr, decimalOfJVal, ItemRec.toObj, commitItem]
  · intro it payload pid pn hpid hpn hwd hpr
    simp [Item.deserialize, hpid, hpn, hwd, hpr, asInt, asStr]
  · intro db wid iid w it payload hfind hifind hwid hpid
    simp [updateItem, hfind, hifind, hwid, Item.deserialize, hpid]

theorem claim_C8_witness :
    updateItem dbFix 1 1
        [("product_id", .int 777), ("product_name", .str "Gadget"),
         ("prices", .num { mant := 2455, exp := 2 })] =
      .ok (Item.serialize
        (ItemRec.toObj
          { itFixA with
              product_id := 777
              product_name := "Gadget"
              cents := quantCents { mant := 2455, exp := 2 } }),
        { dbFix with items := dbFix.items.map (fun x =>
            if x.id == itFixA.id then
              { itFixA with
                  product_id := 777
                  product_name := "Gadget"
                  cents := quantCents { mant := 2455, exp := 2 } }
            else x) }) ∧
    Item.deserialize itFixA.toObj
        [("product_id", .int 777), ("product_name", .str "Gadget"), ("prices", .null)] =
      .ok
        { itFixA.toObj with
            product_id := some 777
            product_name := some "Gadget"
            prices := none } ∧
    updateItem dbFix 1 1 ([("comment", .str "no required keys")] : Payload) =
      .error (.badRequest "Invalid Item: missing product_id") :=
  ⟨claim_C8_update_payload.1 dbFix 1 1 wFixA itFixA _ 777 "Gadget" { mant := 2455, exp := 2 }
     rfl rfl rfl rfl rfl rfl rfl,
   claim_C8_update_payload.2.1 itFixA.toObj _ 777 "Gadget" rfl rfl rfl rfl,
   claim_C8_update_payload.2.2 dbFix 1 1 wFixA itFixA _ rfl rfl rfl rfl⟩

/-- C9 counterexample: deserializing a serialized item into a fresh `Item()`
and serializing again does not reproduce the original dictionary: `id`,
`wishlist_id` and `customer_id` are not read by `deserialize`, so they come
back `null`. -/
theorem claim_C9_counterexample :
    (Item.deserialize Item.new (Item.serialize itObjC9)).map Item.serialize ≠
      .ok (Item.serialize itObjC9) := by
  decide

/-- C9 (amended): the round trip is the identity when the serialized form
is deserialized back into the same item (the fields `deserialize` reads are
restored exactly; the fields it does not read keep the target's values, so
full field-for-field equality holds; `created_at`/`updated_at` are not part
of the serialized form at all). -/
theorem claim_C9_roundtrip :
    ∀ it : ItemObj, it.validStored = true →
      (Item.deserialize it (Item.serialize it)).map Item.serialize =
        .ok (Item.serialize it) := by
  intro it hv
  obtain ⟨oid, owid, ocid, opid, opn, owd, opr⟩ := it
  simp only [ItemObj.validStored, Bool.and_eq_true] at hv
  obtain ⟨⟨h1, h2⟩, _⟩ := hv
  obtain ⟨pid, rfl⟩ := Option.isSome_iff_exists.mp h1
  obtain ⟨pn, rfl⟩ := Option.isSome_iff_exists.mp h2
  rcases owd with _ | s <;> rcases opr with _ | d <;>
    simp [Item.serialize, Item.deserialize, asInt, asStr, decimalOfJVal,
      jOfOptInt, jOfOptStr, jOfOptNat, List.lookup, Except.map]

theorem claim_C9_witness :
    (Item.deserialize itObjC9 (Item.serialize itObjC9)).map Item.serialize =
      .ok (Item.serialize itObjC9) :=
  claim_C9_roundtrip itObjC9 (by decide)

theorem createWishlist_ok_inv {db : DB} {data : Payload} {out : WishlistOut} {db' : DB}
    (h : createWishlist db data = .ok (out, db')) :
    ∃ wNew : WishlistRec, wNew.id = db.nextWid ∧
      db.wishlists.any (fun x => x.customer_id == wNew.customer_id && x.name == wNew.name) = false ∧
      db' = { db with wishlists := db.wishlists ++ [wNew], nextWid := db.nextWid + 1 } := by
  unfold createWishlist at h
  repeat' split at h
  all_goals try exact Except.noConfusion h
  all_goals (cases h; exact ⟨_, rfl, by simp_all, rfl⟩)

theorem createWishlist_pair_mem {db : DB} {data : Payload} {out : WishlistOut} {db' : DB}
    {c n : String}
    (hc : data.lookup "customer_id" = some (.str c))
    (hn : data.lookup "name" = some (.str n))
    (h : createWishlist db data = .ok (out, db')) :
    ∃ w ∈ db'.wishlists, w.customer_id = c ∧ w.name = n := by
  unfold createWishlist at h
  rw [hc, hn] at h
  simp only [asStr] at h
  split at h
  · exact Except.noConfusion h
  · cases h
    refine ⟨_, List.mem_append_right _ (List.mem_singleton_self _), rfl, rfl⟩

theorem createWishlist_dup_conflict {db : DB} {data : Payload} {c n : String}
    (hc : data.lookup "customer_id" = some (.str c))
    (hn : data.lookup "name" = some (.str n))
    (hdup : ∃ w ∈ db.wishlists, w.customer_id = c ∧ w.name = n) :
    createWishlist db data =
      .error (.conflict "uq_wishlist_customer_name: duplicate (customer_id, name)") := by
  obtain ⟨w, hw, hwc, hwn⟩ := hdup
  have hguard : db.wishlists.any (fun x => x.customer_id == c && x.name == n) = true :=
    List.any_eq_true.mpr ⟨w, hw, by simp [hwc, hwn]⟩
  unfold createWishlist
  rw [hc, hn]
  simp [asStr, hguard]

theorem updateWishlist_ok_inv {db : DB} {wid : Nat} {hdr : Option String} {data : Payload}
    {out : WishlistOut} {db' : DB}
    (h : updateWishlist db wid hdr data = .ok (out, db')) :
    ∃ w2 : WishlistRec,
      db.wishlists.any
        (fun x => x.id ≠ w2.id && x.customer_id == w2.customer_id && x.name == w2.name) = false ∧
      db' = { db with wishlists := db.wishlists.map (fun x => if x.id == w2.id then w2 else x) } := by
  unfold updateWishlist at h
  repeat' split at h
  all_goals try exact Except.noConfusion h
  all_goals (cases h; exact ⟨_, by simp_all, rfl⟩)

theorem replace_id_eq (w2 x : WishlistRec) :
    ((if x.id == w2.id then w2 else x) : WishlistRec).id = x.id := by
  by_cases h : x.id = w2.id
  · simp [h]
  · simp [h]

theorem pairwise_replace {l : List WishlistRec} {w2 : WishlistRec}
    (hids : l.Pairwise (fun a b => a.id ≠ b.id))
    (hpairs : l.Pairwise (fun a b => ¬(a.customer_id = b.customer_id ∧ a.name = b.name)))
    (hguard : ∀ x ∈ l, x.id ≠ w2.id → ¬(x.customer_id = w2.customer_id ∧ x.name = w2.name)) :
    (l.map (fun x => if x.id == w2.id then w2 else x)).Pairwise
      (fun a b => ¬(a.customer_id = b.customer_id ∧ a.name = b.name)) := by
  induction l with
  | nil => exact List.Pairwise.nil
  | cons a t ih =>
    have hidsa := List.pairwise_cons.mp hids
    have hpairsa := List.pairwise_cons.mp hpairs
    refine List.pairwise_cons.mpr ⟨?_, ?_⟩
    · intro b hb
      obtain ⟨x, hx, rfl⟩ := List.mem_map.mp hb
      by_cases ha : a.id = w2.id
      · have hxw2 : ¬ x.id = w2.id := fun hxe => hidsa.1 x hx (ha.trans hxe.symm)
        have e1 : (a.id == w2.id) = true := by simp [ha]
        have e2 : (x.id == w2.id) = false := by simp [hxw2]
        simp only [e1, e2, if_true, if_false]
        intro hpair
        exact hguard x (List.mem_cons_of_mem a hx) hxw2 ⟨hpair.1.symm, hpair.2.symm⟩
      · have e1 : (a.id == w2.id) = false := by simp [ha]
        simp only [e1, if_false]
        by_cases hx2 : x.id = w2.id
        · have e2 : (x.id == w2.id) = true := by simp [hx2]
          simp only [e2, if_true]
          exact hguard a (List.mem_cons_self a t) ha
        · have e2 : (x.id == w2.id) = false := by simp [hx2]
          simp only [e2, if_false]
          exact hpairsa.1 x hx
    · exact ih hidsa.2 hpairsa.2
        (fun x hx => hguard x (List.mem_cons_of_mem a hx))

theorem createItem_ok_wishlists {db : DB} {wid : Nat} {p : Payload} {o : Payload} {db' : DB}
    (h : createItem db wid p = .ok (o, db')) :
    db'.wishlists = db.wishlists ∧ db'.nextWid = db.nextWid := by
  unfold createItem at h
  repeat' split at h
  all_goals try exact Except.noConfusion h
  all_goals (cases h; exact ⟨rfl, rfl⟩)

theorem updateItem_ok_wishlists {db : DB} {wid iid : Nat} {p : Payload} {o : Payload} {db' : DB}
    (h : updateItem db wid iid p = .ok (o, db')) :
    db'.wishlists = db.wishlists ∧ db'.nextWid = db.nextWid := by
  unfold updateItem at h
  repeat' split at h
  all_goals try exact Except.noConfusion h
  all_goals (cases h; exact ⟨rfl, rfl⟩)

theorem deleteItem_ok_wishlists {db : DB} {wid iid : Nat} {o : Unit} {db' : DB}
    (h : deleteItem db wid iid = .ok (o, db')) :
    db'.wishlists = db.wishlists ∧ db'.nextWid = db.nextWid := by
  unfold deleteItem at h
  repeat' split at h
  all_goals (cases h; exact ⟨rfl, rfl⟩)

theorem clearWishlist_ok_wishlists {db : DB} {wid : Nat} {o : Unit} {db' : DB}
    (h : clearWishlist db wid = .ok (o, db')) :
    db'.wishlists = db.wishlists ∧ db'.nextWid = db.nextWid := by
  unfold clearWishlist Wishlist.clear_items at h
  repeat' split at h
  all_goals try exact Except.noConfusion h
  all_goals (cases h; exact ⟨rfl, rfl⟩)

theorem wfW_wishlists_congr {db db' : DB}
    (hw : db'.wishlists = db.wishlists) (hn : db'.nextWid = db.nextWid)
    (h : db.wfW ∧ db.uniquePairs) : db'.wfW ∧ db'.uniquePairs := by
  unfold DB.wfW DB.uniquePairs at *
  rw [hw, hn]
  exact h

theorem applyOp_preserves (db : DB) (op : Op) (h : db.wfW ∧ db.uniquePairs) :
    (applyOp db op).wfW ∧ (applyOp db op).uniquePairs := by
  obtain ⟨hwf, hu⟩ := h
  cases op with
  | createW data =>
    simp only [applyOp]
    cases hc : createWishlist db data with
    | error e => exact ⟨hwf, hu⟩
    | ok x =>
      obtain ⟨o, db'⟩ := x
      obtain ⟨wNew, hid, hguard, rfl⟩ := createWishlist_ok_inv hc
      constructor
      · constructor
        · intro w hw
          rcases List.mem_append.mp hw with hw | hw
          · exact Nat.lt_succ_of_lt (hwf.1 w hw)
          · rw [List.mem_singleton.mp hw, hid]
            exact Nat.lt_succ_self _
        · apply List.pairwise_append.mpr
          refine ⟨hwf.2, List.pairwise_singleton _ _, ?_⟩
          intro a ha b hb
          rw [List.mem_singleton.mp hb, hid]
          exact Nat.ne_of_lt (hwf.1 a ha)
      · apply List.pairwise_append.mpr
        refine ⟨hu, List.pairwise_singleton _ _, ?_⟩
        intro a ha b hb
        rw [List.mem_singleton.mp hb]
        intro hpair
        have := List.any_eq_false.mp hguard a ha
        simp [hpair.1, hpair.2] at this
  | updateW wid hdr data =>
    simp only [applyOp]
    cases hc : updateWishlist db wid hdr data with
    | error e => exact ⟨hwf, hu⟩
    | ok x =>
      obtain ⟨o, db'⟩ := x
      obtain ⟨w2, hguard, rfl⟩ := updateWishlist_ok_inv hc
      have hguard' : ∀ x ∈ db.wishlists, x.id ≠ w2.id →
          ¬(x.customer_id = w2.customer_id ∧ x.name = w2.name) := by
        intro x hx hne hpair
        have := List.any_eq_false.mp hguard x hx
        simp [hne, hpair.1, hpair.2] at this
      constructor
      · constructor
        · intro w hw
          obtain ⟨x, hx, rfl⟩ := List.mem_map.mp hw
          rw [replace_id_eq]
          exact hwf.1 x hx
        · apply List.pairwise_map.mpr
          apply hwf.2.imp
          intro a b hab
          rw [replace_id_eq, replace_id_eq]
          exact hab
      · exact pairwise_replace hwf.2 hu hguard'
  | deleteW wid =>
    simp only [applyOp]
    unfold deleteWishlist
    cases hf : Wishlist.find db wid with
    | none => exact ⟨hwf, hu⟩
    | some w =>
      constructor
      · exact ⟨fun x hx => hwf.1 x (List.mem_of_mem_filter hx), hwf.2.filter _⟩
      · exact hu.filter _
  | createI wid p =>
    simp only [applyOp]
    cases hc : createItem db wid p with
    | error e => exact ⟨hwf, hu⟩
    | ok x =>
      obtain ⟨o, db'⟩ := x
      exact wfW_wishlists_congr (createItem_ok_wishlists hc).1 (createItem_ok_wishlists hc).2 ⟨hwf, hu⟩
  | updateI wid iid p =>
    simp only [applyOp]
    cases hc : updateItem db wid iid p with
    | error e => exact ⟨hwf, hu⟩
    | ok x =>
      obtain ⟨o, db'⟩ := x
      exact wfW_wishlists_congr (updateItem_ok_wishlists hc).1 (updateItem_ok_wishlists hc).2 ⟨hwf, hu⟩
  | deleteI wid iid =>
    simp only [applyOp]
    cases hc : deleteItem db wid iid with
    | error e => exact ⟨hwf, hu⟩
    | ok x =>
      obtain ⟨o, db'⟩ := x
      exact wfW_wishlists_congr (deleteItem_ok_wishlists hc).1 (deleteItem_ok_wishlists hc).2 ⟨hwf, hu⟩
  | clearW wid =>
    simp only [applyOp]
    cases hc : clearWishlist db wid with
    | error e => exact ⟨hwf, hu⟩
    | ok x =>
      obtain ⟨o, db'⟩ := x
      exact wfW_wishlists_congr (clearWishlist_ok_wishlists hc).1 (clearWishlist_ok_wishlists hc).2 ⟨hwf, hu⟩

theorem applyOps_preserves (db : DB) (ops : List Op) (h : db.wfW ∧ db.uniquePairs) :
    (applyOps db ops).wfW ∧ (applyOps db ops).uniquePairs := by
  induction ops generalizing db with
  | nil => exact h
  | cons op rest ih =>
    simp only [applyOps, List.foldl] at *
    exact ih (applyOp db op) (applyOp_preserves db op h)

/-- C6: `(customer_id, name)` is unique across stored wishlists.  After a
successful creation, creating a second wishlist with the same pair fails
with the `ConflictError`-equivalent of the storage-level unique constraint;
and no sequence of requests (create/update/delete of wishlists or items,
clear) started from a well-formed store ever yields two coexisting
wishlists with an equal pair. -/
theorem claim_C6_unique_pair :
    (∀ (db : DB) (p₁ p₂ : Payload) (c n : String) (out : WishlistOut) (db₁ : DB),
      p₁.lookup "customer_id" = some (.str c) → p₁.lookup "name" = some (.str n) →
      p₂.lookup "customer_id" = some (.str c) → p₂.lookup "name" = some (.str n) →
      createWishlist db p₁ = .ok (out, db₁) →
      createWishlist db₁ p₂ =
        .error (.conflict "uq_wishlist_customer_name: duplicate (customer_id, name)")) ∧
    (∀ (db : DB) (ops : List Op), db.wfW → db.uniquePairs →
      (applyOps db ops).uniquePairs) := by
  constructor
  · intro db p₁ p₂ c n out db₁ hc1 hn1 hc2 hn2 hok
    exact createWishlist_dup_conflict hc2 hn2 (createWishlist_pair_mem hc1 hn1 hok)
  · intro db ops hwf hu
    exact (applyOps_preserves db ops ⟨hwf, hu⟩).2

theorem claim_C6_witness :
    createWishlist
        { dbFix with
            wishlists := dbFix.wishlists ++
              [{ id := 3, customer_id := "CUST003", name := "Camping"
                 description := none, created_at := "t0", updated_at := "t0" }]
            nextWid := 4 }
        [("customer_id", .str "CUST003"), ("name", .str "Camping")] =
      .error (.conflict "uq_wishlist_customer_name: duplicate (customer_id, name)") ∧
    (applyOps dbFix
        [.createW [("customer_id", .str "CUST003"), ("name", .str "Camping")],
         .updateW 1 (some "CUST001") [("name", .str "Renamed")],
         .deleteW 2]).uniquePairs :=
  ⟨claim_C6_unique_pair.1 dbFix
     [("customer_id", .str "CUST003"), ("name", .str "Camping")]
     [("customer_id", .str "CUST003"), ("name", .str "Camping")]
     "CUST003" "Camping" _ _ rfl rfl rfl rfl rfl,
   claim_C6_unique_pair.2 dbFix _
     (by unfold DB.wfW; constructor <;> decide)
     (by unfold DB.uniquePairs; decide)⟩
